import Mathlib

/-
Verification of the index-handle core (src/toolchain/base/index_base.h).

The C++ code defines a lightweight handle type `IndexBase` wrapping an
`int32_t` with the sentinel value -1 meaning "invalid", a derived
`ComparableIndexBase` that additionally receives ordering operators, generic
equality/ordering operators over those bases, and an `IndexMapInfo` adapter
that lets handle types serve as DenseMap/DenseSet keys by delegating to
`llvm::DenseMapInfo<int32_t>`.

Machine integers are embedded as `Int`; the `int32_t` field is modelled as an
unconstrained `Int` (construction never truncates: the constructor parameter
is already a 32-bit int), so theorems quantified over all `Int` in
particular cover every 32-bit value. The unsigned hash is a `Nat` reduced
mod 2^32 exactly where the C++ unsigned arithmetic wraps.
-/

namespace Carbon

/-- Embedding of `struct IndexBase`: a handle storing a single `int32_t`
field named `index`. -/
structure IndexBase where
  index : Int
deriving DecidableEq, Repr

/-- Embedding of `IndexBase::InvalidIndex`, the sentinel -1. -/
def IndexBase.InvalidIndex : Int := -1

/-- Embedding of `IndexBase::is_valid`: `return index != InvalidIndex;`. -/
def IndexBase.is_valid (i : IndexBase) : Bool :=
  i.index != IndexBase.InvalidIndex

/-- Embedding of `IndexBase::Print`: writes the decimal form of `index` to
the stream when valid, otherwise the literal text `<invalid>`. The stream
output is modelled as the produced string; `llvm::raw_ostream << int32_t`
prints the signed decimal form, which `toString : Int → String` matches. -/
def IndexBase.Print (i : IndexBase) : String :=
  if i.is_valid then toString i.index else "<invalid>"

/-- Embedding of the generic `operator==` for `IndexBase`-derived types:
`return lhs.index == rhs.index;`. -/
def indexEq (lhs rhs : IndexBase) : Bool :=
  lhs.index == rhs.index

/-- Embedding of the generic `operator!=` for `IndexBase`-derived types:
`return lhs.index != rhs.index;`. -/
def indexNe (lhs rhs : IndexBase) : Bool :=
  lhs.index != rhs.index

/-- Embedding of `struct ComparableIndexBase : public IndexBase`, the
ordered variant; it adds no fields, only eligibility for the ordering
operators. -/
structure ComparableIndexBase extends IndexBase
deriving DecidableEq, Repr

/-- Embedding of `operator<` for `ComparableIndexBase`-derived types:
`return lhs.index < rhs.index;`. -/
def indexLt (lhs rhs : ComparableIndexBase) : Bool :=
  lhs.index < rhs.index

/-- Embedding of `operator<=` for `ComparableIndexBase`-derived types:
`return lhs.index <= rhs.index;`. -/
def indexLe (lhs rhs : ComparableIndexBase) : Bool :=
  lhs.index ≤ rhs.index

/-- Embedding of `operator>` for `ComparableIndexBase`-derived types:
`return lhs.index > rhs.index;`. -/
def indexGt (lhs rhs : ComparableIndexBase) : Bool :=
  lhs.index > rhs.index

/-- Embedding of `operator>=` for `ComparableIndexBase`-derived types:
`return lhs.index >= rhs.index;`. -/
def indexGe (lhs rhs : ComparableIndexBase) : Bool :=
  lhs.index ≥ rhs.index

/-- Modelled from the spec: the underlying integer hashing utility
(`llvm::DenseMapInfo<int32_t>`, an external LLVM dependency not in this
repository) supplies a map-internal "empty slot" sentinel near the extreme
of the representable range. LLVM defines `getEmptyKey()` for `int` as
`0x7fffffff`. -/
def DenseMapInfoInt32.getEmptyKey : Int := 0x7fffffff

/-- Modelled from the spec: the "deleted slot" sentinel of
`llvm::DenseMapInfo<int32_t>`, distinct from the empty-slot sentinel. LLVM
defines `getTombstoneKey()` for `int` as `-0x7fffffff - 1`. -/
def DenseMapInfoInt32.getTombstoneKey : Int := -0x7fffffff - 1

/-- Conversion of a signed value to its 32-bit unsigned representation, as
performed by the C++ usual arithmetic conversions in `Val * 37U`. -/
def toUInt32Rep (v : Int) : Nat := (v % (2 ^ 32 : Int)).toNat

/-- Modelled from the spec: the standard integer hash of
`llvm::DenseMapInfo<int32_t>`: `return (unsigned)(Val * 37U);`, i.e. the
value converted to unsigned, multiplied by 37 with 32-bit wraparound. -/
def DenseMapInfoInt32.getHashValue (v : Int) : Nat :=
  toUInt32Rep v * 37 % 2 ^ 32

/-- Embedding of `IndexMapInfo<Index>::getEmptyKey`: constructs the handle
from `llvm::DenseMapInfo<int32_t>::getEmptyKey()`. -/
def IndexMapInfo.getEmptyKey : IndexBase :=
  ⟨DenseMapInfoInt32.getEmptyKey⟩

/-- Embedding of `IndexMapInfo<Index>::getTombstoneKey`: constructs the
handle from `llvm::DenseMapInfo<int32_t>::getTombstoneKey()`. -/
def IndexMapInfo.getTombstoneKey : IndexBase :=
  ⟨DenseMapInfoInt32.getTombstoneKey⟩

/-- Embedding of `IndexMapInfo<Index>::getHashValue`: delegates to
`llvm::DenseMapInfo<int32_t>::getHashValue(val.index)`. -/
def IndexMapInfo.getHashValue (val : IndexBase) : Nat :=
  DenseMapInfoInt32.getHashValue val.index

/-- Embedding of `IndexMapInfo<Index>::isEqual`: `return lhs == rhs;`,
delegating to the generic equality operator. -/
def IndexMapInfo.isEqual (lhs rhs : IndexBase) : Bool :=
  indexEq lhs rhs

/-- C1: for every integer v (hence in particular every 32-bit integer), the
handle constructed from v satisfies `is_valid = true` iff `v ≠ -1`; in
particular the handle built from -1 is invalid. -/
theorem is_valid_iff_ne_sentinel :
    (∀ v : Int, (IndexBase.mk v).is_valid = true ↔ v ≠ -1) ∧
    (IndexBase.mk (-1)).is_valid = false := by
  constructor
  · intro v
    simp [IndexBase.is_valid, IndexBase.InvalidIndex]
  · rfl

/-- C2: for every pair of handles, `==` holds iff the `index` fields are
equal and `!=` holds iff they differ; equality is reflexive, and handles
with distinct indices compare unequal. -/
theorem eq_iff_index_eq (a b : IndexBase) :
    (indexEq a b = true ↔ a.index = b.index) ∧
    (indexNe a b = true ↔ a.index ≠ b.index) ∧
    indexEq a a = true := by
  refine ⟨?_, ?_, ?_⟩ <;> simp [indexEq, indexNe]

/-- C3: for ordered handles the four relational operators agree exactly with
the numeric order of the stored indices, with the sentinel -1 treated by its
raw value and no special case for invalid handles; consequently for all a, b
exactly one of a < b, a == b, a > b holds (strict total order trichotomy). -/
theorem ordered_strict_total_order (a b : ComparableIndexBase) :
    (indexLt a b = true ↔ a.index < b.index) ∧
    (indexLe a b = true ↔ a.index ≤ b.index) ∧
    (indexGt a b = true ↔ b.index < a.index) ∧
    (indexGe a b = true ↔ b.index ≤ a.index) ∧
    ((indexLt a b = true ∧ indexEq a.toIndexBase b.toIndexBase = false ∧
        indexGt a b = false) ∨
      (indexLt a b = false ∧ indexEq a.toIndexBase b.toIndexBase = true ∧
        indexGt a b = false) ∨
      (indexLt a b = false ∧ indexEq a.toIndexBase b.toIndexBase = false ∧
        indexGt a b = true)) := by
  refine ⟨?_, ?_, ?_, ?_, ?_⟩ <;>
    simp [indexLt, indexLe, indexGt, indexGe, indexEq]
  omega

/-- C4: the hash-map adapter sentinels are never equal to each other, and
the empty key's index is distinct from the domain invalid sentinel -1. -/
theorem empty_tombstone_distinct :
    IndexMapInfo.isEqual IndexMapInfo.getEmptyKey IndexMapInfo.getTombstoneKey
        = false ∧
    IndexMapInfo.getEmptyKey.index ≠ IndexBase.InvalidIndex := by
  decide

/-- C5: the adapter hash of a handle is exactly the standard integer hash of
its `index` field (so it depends only on the index), and equal handles hash
identically. -/
theorem hash_consistent_with_eq (a b : IndexBase) :
    IndexMapInfo.getHashValue a = DenseMapInfoInt32.getHashValue a.index ∧
    (indexEq a b = true →
      IndexMapInfo.getHashValue a = IndexMapInfo.getHashValue b) := by
  constructor
  · rfl
  · intro h
    have hidx : a.index = b.index := by simpa [indexEq] using h
    simp [IndexMapInfo.getHashValue, hidx]

/-- Witness for C5 at the concrete equal pair of handles with index 5. -/
theorem hash_consistent_with_eq_witness :
    IndexMapInfo.getHashValue ⟨5⟩ = DenseMapInfoInt32.getHashValue (5 : Int) ∧
    IndexMapInfo.getHashValue ⟨5⟩ = IndexMapInfo.getHashValue ⟨5⟩ :=
  ⟨(hash_consistent_with_eq ⟨5⟩ ⟨5⟩).1,
    (hash_consistent_with_eq ⟨5⟩ ⟨5⟩).2 (by decide)⟩

/-- C6: printing a valid handle yields the decimal form of its index, and
printing an invalid handle yields the literal text between angle brackets;
in particular the handle from -1 renders as that literal and the handle from
42 renders as the digits 42. -/
theorem print_decimal_or_invalid (i : IndexBase) :
    (i.is_valid = true → i.Print = toString i.index) ∧
    (i.is_valid = false → i.Print = "<invalid>") ∧
    (IndexBase.mk (-1)).Print = "<invalid>" ∧
    (IndexBase.mk 42).Print = "42" := by
  refine ⟨?_, ?_, ?_, ?_⟩
  · intro h
    simp [IndexBase.Print, h]
  · intro h
    simp [IndexBase.Print, h]
  · rfl
  · rfl

/-- Witness for C6 at the concrete handles with index 7 and index -1. -/
theorem print_decimal_or_invalid_witness :
    (IndexBase.mk 7).Print = toString (7 : Int) ∧
    (IndexBase.mk (-1)).Print = "<invalid>" :=
  ⟨(print_decimal_or_invalid ⟨7⟩).1 (by decide),
    (print_decimal_or_invalid ⟨(-1)⟩).2.1 (by decide)⟩

/-- C7: the hash-map adapter's equality returns exactly the same boolean as
the generic equality operator, on all pairs of handles. -/
theorem isEqual_agrees_with_eq (a b : IndexBase) :
    IndexMapInfo.isEqual a b = indexEq a b :=
  rfl

/-- C8: every comparison and hash operation is a pure total function of the
operands' index fields: on all handles, including invalid ones carrying the
sentinel -1, each operator returns the boolean decision of the corresponding
integer comparison of the indices, and the hash returns a value in the
unsigned 32-bit range. -/
theorem ops_pure_total (a b : IndexBase) (c d : ComparableIndexBase) :
    indexEq a b = decide (a.index = b.index) ∧
    indexNe a b = decide (a.index ≠ b.index) ∧
    indexLt c d = decide (c.index < d.index) ∧
    indexLe c d = decide (c.index ≤ d.index) ∧
    indexGt c d = decide (d.index < c.index) ∧
    indexGe c d = decide (d.index ≤ c.index) ∧
    IndexMapInfo.isEqual a b = decide (a.index = b.index) ∧
    IndexMapInfo.getHashValue a < 2 ^ 32 := by
  refine ⟨?_, ?_, ?_, ?_, ?_, ?_, ?_, ?_⟩
  · rw [Bool.eq_iff_iff]
    simp [indexEq]
  · rw [Bool.eq_iff_iff]
    simp [indexNe]
  · rw [Bool.eq_iff_iff]
    simp [indexLt]
  · rw [Bool.eq_iff_iff]
    simp [indexLe]
  · rw [Bool.eq_iff_iff]
    simp [indexGt]
  · rw [Bool.eq_iff_iff]
    simp [indexGe]
  · rw [Bool.eq_iff_iff]
    simp [IndexMapInfo.isEqual, indexEq]
  · exact Nat.mod_lt _ (by norm_num)

/-- C9: both map-internal sentinel keys pass the handle validity check:
`is_valid` cannot distinguish the empty and tombstone keys from ordinary
valid handles. -/
theorem empty_tombstone_are_valid :
    IndexMapInfo.getEmptyKey.is_valid = true ∧
    IndexMapInfo.getTombstoneKey.is_valid = true := by
  decide

/-- C10: the four independently defined ordering operators are mutually
consistent: a <= b iff a < b or a == b; a > b iff b < a; a >= b iff
b <= a. -/
theorem ordering_ops_consistent (a b : ComparableIndexBase) :
    (indexLe a b = true ↔
      (indexLt a b = true ∨ indexEq a.toIndexBase b.toIndexBase = true)) ∧
    indexGt a b = indexLt b a ∧
    indexGe a b = indexLe b a := by
  refine ⟨?_, ?_, ?_⟩
  · simp [indexLe, indexLt, indexEq]
    omega
  · simp [indexGt, indexLt]
  · simp [indexGe, indexLe]

end Carbon
